import Mathlib

/-!
Verification of the semcp container-launcher core against its specification.

This file shallowly embeds the policy data model, the three policy
translators (engine-arg builder, Rego translator, Falco rule generator),
and the container-session invocation assembly from the Rust sources
(src/src/policy.rs, src/src/opa.rs, src/src/lib.rs, src/common/src/lib.rs),
and proves the specification claims about them.

Conventions of the embedding:
* Rust `Vec<T>` is `List T`; `Option<T>` is `Option T`; `String` is `String`.
* Imperative `push`/`extend` loops become `List.foldl` with list append, or
  structural recursion, preserving emission order.
* Side effects (file writes, process spawning, the signal race) are made
  explicit: the Falco generator returns the path/content pair it would
  write, and the executor wait is a function of which racer finished first.
* `anyhow::Result` wrappers that can only be `Ok` in the modelled fragment
  are dropped; fallible external steps are explicit parameters.
-/

/-- Transport classification of a wrapped package
(src/common/src/lib.rs and src/src/lib.rs, enum Transport). -/
inductive Transport where
  | stdio
  | http
  | sse
deriving DecidableEq, Repr

/-- The Runner trait (src/common/src/lib.rs, trait Runner): a capability
record describing one wrapped tool variant.  Trait methods with default
bodies are fields holding their per-variant value. -/
structure Runner where
  command : String
  default_image : String
  default_flags : List String
  detect_transport : String → Transport
  requires_tty : Transport → Bool
  additional_docker_args : List String
  supports_fallback : Bool

/-- Runner::build_command_args: vec![command] extended with the runner
flags then the user arguments (src/common/src/lib.rs lines 49-54). -/
def Runner.build_command_args (r : Runner) (flags args : List String) : List String :=
  r.command :: (flags ++ args)

/-- Access capability of a storage permission, from the external
`policy_mcp` dependency.  Only membership of `Write` is consulted by the
code under verification (src/src/policy.rs line 64). -/
inductive AccessType where
  | Read
  | Write
  | Execute
deriving DecidableEq, BEq, Repr

/-- Docker capability value, from the external `policy_mcp` dependency.
The builder renders a capability with Rust `format!("\x7b:?\x7d", cap)`, i.e. the
derived Debug form of the variant name.  The in-repository test
(src/src/policy.rs line 122) pins the rendering of the capability parsed
from "ALL" to a string containing "All", so the ALL variant is modelled
with Debug form "All"; any other capability is carried opaquely together
with its Debug form. -/
inductive Capability where
  | All
  | other (debugForm : String)
deriving DecidableEq, Repr

/-- Rust derive(Debug) rendering of a capability value. -/
def Capability.debugFormat : Capability → String
  | .All => "All"
  | .other s => s

/-- A storage permission from the policy document
(policy_mcp: uri plus access-capability set). -/
structure StoragePermission where
  uri : String
  access : List AccessType
deriving DecidableEq, Repr

/-- The storage permissions section: an optional allow list. -/
structure StoragePermissions where
  allow : Option (List StoragePermission)
deriving DecidableEq, Repr

/-- The docker capabilities section: optional drop and add lists. -/
structure Capabilities where
  drop : Option (List Capability)
  add : Option (List Capability)
deriving DecidableEq, Repr

/-- The docker security section: optional privileged flag and
capabilities. -/
structure DockerSecurity where
  privileged : Option Bool
  capabilities : Option Capabilities
deriving DecidableEq, Repr

/-- The docker subsection of runtime permissions. -/
structure DockerPermissions where
  security : Option DockerSecurity
deriving DecidableEq, Repr

/-- The runtime permissions section. -/
structure RuntimePermissions where
  docker : Option DockerPermissions
deriving DecidableEq, Repr

/-- The permissions of a policy document.  Only the fields read by
src/src/policy.rs are modelled; the external `policy_mcp` crate carries
further fields that the code under verification never consults. -/
structure Permissions where
  runtime : Option RuntimePermissions
  storage : Option StoragePermissions
deriving DecidableEq, Repr

/-- The parsed policy document (policy_mcp::PolicyDocument) as consulted
by src/src/policy.rs. -/
structure PolicyDocument where
  permissions : Permissions
deriving DecidableEq, Repr

/-- PolicyConfig (src/src/policy.rs lines 4-7): an optional bound policy
document. -/
structure PolicyConfig where
  policy : Option PolicyDocument
deriving DecidableEq, Repr

/-- PolicyConfig::new (src/src/policy.rs lines 10-12): no document bound. -/
def PolicyConfig.new : PolicyConfig := ⟨none⟩

/-- The loop body of PolicyConfig::map_docker_security_args for one
dropped capability: pushes the paired flag and the Debug-formatted value
(src/src/policy.rs lines 36-39). -/
def capDropPair (cap : Capability) : List String :=
  ["--cap-drop", cap.debugFormat]

/-- The loop body of PolicyConfig::map_docker_security_args for one added
capability (src/src/policy.rs lines 42-45). -/
def capAddPair (cap : Capability) : List String :=
  ["--cap-add", cap.debugFormat]

/-- PolicyConfig::map_docker_security_args (src/src/policy.rs lines
21-53): starting from an empty vector, push the hardening pair when
privileged is explicitly false, then one pair per dropped capability in
list order, then one pair per added capability in list order.  Absent
sections contribute nothing. -/
def PolicyConfig.map_docker_security_args (c : PolicyConfig) : List String :=
  match c.policy with
  | none => []
  | some policy =>
    match policy.permissions.runtime with
    | none => []
    | some runtime =>
      match runtime.docker with
      | none => []
      | some docker =>
        match docker.security with
        | none => []
        | some security =>
          let args : List String := []
          let args := match security.privileged with
            | some privileged =>
              if !privileged then args ++ ["--security-opt", "no-new-privileges"] else args
            | none => args
          match security.capabilities with
          | none => args
          | some capabilities =>
            let args := match capabilities.drop with
              | none => args
              | some drop_caps => drop_caps.foldl (fun a cap => a ++ capDropPair cap) args
            match capabilities.add with
            | none => args
            | some add_caps => add_caps.foldl (fun a cap => a ++ capAddPair cap) args

/-- The loop body of PolicyConfig::map_file_mounts for one storage
permission (src/src/policy.rs lines 62-69): when the URI starts with the
path scheme "fs://", strip the five scheme characters (the Rust byte
slice uri[5..], identical to dropping five characters since the scheme is
ASCII), choose mode "ro" unless the access set contains Write, and emit
the bind-mount pair; otherwise emit nothing.  The scheme test is stated
on the character lists, which is what Rust str::starts_with means for an
ASCII pattern. -/
def mountPair (sp : StoragePermission) : List String :=
  if "fs://".data.isPrefixOf sp.uri.data then
    let path : String := ⟨sp.uri.data.drop 5⟩
    let readonly := !(sp.access.contains AccessType.Write)
    let mode := if readonly then "ro" else "rw"
    ["-v", path ++ ":" ++ path ++ ":" ++ mode]
  else []

/-- PolicyConfig::map_file_mounts (src/src/policy.rs lines 55-75). -/
def PolicyConfig.map_file_mounts (c : PolicyConfig) : List String :=
  match c.policy with
  | none => []
  | some policy =>
    match policy.permissions.storage with
    | none => []
    | some storage =>
      match storage.allow with
      | none => []
      | some allow_list =>
        allow_list.foldl (fun mounts sp => mounts ++ mountPair sp) []

/-- PolicyConfig::get_all_docker_args (src/src/policy.rs lines 77-82):
the mount args extended with the security args. -/
def PolicyConfig.get_all_docker_args (c : PolicyConfig) : List String :=
  c.map_file_mounts ++ c.map_docker_security_args

/-- Projection: the storage allow list of a config, empty when any layer
is absent.  Used to state the source-order properties of the builders. -/
def PolicyConfig.storageAllow (c : PolicyConfig) : List StoragePermission :=
  match c.policy with
  | some policy =>
    match policy.permissions.storage with
    | some storage => storage.allow.getD []
    | none => []
  | none => []

/-- Projection: the docker security section of a config, when present. -/
def PolicyConfig.securitySection (c : PolicyConfig) : Option DockerSecurity :=
  match c.policy with
  | some policy =>
    match policy.permissions.runtime with
    | some runtime =>
      match runtime.docker with
      | some docker => docker.security
      | none => none
    | none => none
  | none => none

/-- Spec-side description of the hardening args: the single pair exactly
when privileged is explicitly present and false. -/
def specPrivilegedArgs (c : PolicyConfig) : List String :=
  match c.securitySection with
  | some security =>
    match security.privileged with
    | some false => ["--security-opt", "no-new-privileges"]
    | _ => []
  | none => []

/-- Projection: the capability drop list, empty when absent. -/
def PolicyConfig.capDropList (c : PolicyConfig) : List Capability :=
  match c.securitySection with
  | some security =>
    match security.capabilities with
    | some capabilities => capabilities.drop.getD []
    | none => []
  | none => []

/-- Projection: the capability add list, empty when absent. -/
def PolicyConfig.capAddList (c : PolicyConfig) : List Capability :=
  match c.securitySection with
  | some security =>
    match security.capabilities with
    | some capabilities => capabilities.add.getD []
    | none => []
  | none => []

lemma foldl_append_pairs {α : Type} (f : α → List String) :
    ∀ (l : List α) (acc : List String),
      l.foldl (fun a x => a ++ f x) acc = acc ++ (l.map f).flatten
  | [], acc => by simp
  | x :: t, acc => by
    simp [List.foldl, foldl_append_pairs f t (acc ++ f x)]

lemma map_file_mounts_eq (c : PolicyConfig) :
    c.map_file_mounts = (c.storageAllow.map mountPair).flatten := by
  obtain ⟨policy⟩ := c
  cases policy with
  | none => simp [PolicyConfig.map_file_mounts, PolicyConfig.storageAllow]
  | some doc =>
    obtain ⟨⟨runtime, storage⟩⟩ := doc
    cases storage with
    | none => simp [PolicyConfig.map_file_mounts, PolicyConfig.storageAllow]
    | some st =>
      obtain ⟨allow⟩ := st
      cases allow with
      | none => simp [PolicyConfig.map_file_mounts, PolicyConfig.storageAllow]
      | some allow_list =>
        simp only [PolicyConfig.map_file_mounts, PolicyConfig.storageAllow, Option.getD]
        simpa using foldl_append_pairs mountPair allow_list []

lemma map_docker_security_args_eq (c : PolicyConfig) :
    c.map_docker_security_args =
      specPrivilegedArgs c ++ (c.capDropList.map capDropPair).flatten
        ++ (c.capAddList.map capAddPair).flatten := by
  obtain ⟨policy⟩ := c
  cases policy with
  | none =>
    simp [PolicyConfig.map_docker_security_args, specPrivilegedArgs,
      PolicyConfig.capDropList, PolicyConfig.capAddList, PolicyConfig.securitySection]
  | some doc =>
    obtain ⟨⟨runtime, storage⟩⟩ := doc
    cases runtime with
    | none =>
      simp [PolicyConfig.map_docker_security_args, specPrivilegedArgs,
        PolicyConfig.capDropList, PolicyConfig.capAddList, PolicyConfig.securitySection]
    | some rt =>
      obtain ⟨docker⟩ := rt
      cases docker with
      | none =>
        simp [PolicyConfig.map_docker_security_args, specPrivilegedArgs,
          PolicyConfig.capDropList, PolicyConfig.capAddList, PolicyConfig.securitySection]
      | some dk =>
        obtain ⟨security⟩ := dk
        cases security with
        | none =>
          simp [PolicyConfig.map_docker_security_args, specPrivilegedArgs,
            PolicyConfig.capDropList, PolicyConfig.capAddList, PolicyConfig.securitySection]
        | some sec =>
          obtain ⟨privileged, capabilities⟩ := sec
          have main : ∀ (base : List String),
              (match capabilities with
                | none => base
                | some caps =>
                  let args := match caps.drop with
                    | none => base
                    | some drop_caps =>
                      drop_caps.foldl (fun a cap => a ++ capDropPair cap) base
                  match caps.add with
                  | none => args
                  | some add_caps =>
                    add_caps.foldl (fun a cap => a ++ capAddPair cap) args) =
              base
                ++ ((match capabilities with
                      | some caps => caps.drop.getD []
                      | none => []).map capDropPair).flatten
                ++ ((match capabilities with
                      | some caps => caps.add.getD []
                      | none => []).map capAddPair).flatten := by
            intro base
            cases capabilities with
            | none => simp
            | some caps =>
              obtain ⟨drop, add⟩ := caps
              cases drop with
              | none =>
                cases add with
                | none => simp
                | some add_caps => simp [foldl_append_pairs capAddPair add_caps]
              | some drop_caps =>
                cases add with
                | none => simp [foldl_append_pairs capDropPair drop_caps]
                | some add_caps =>
                  simp [foldl_append_pairs capDropPair drop_caps,
                    foldl_append_pairs capAddPair add_caps]
          cases privileged with
          | none =>
            simpa [PolicyConfig.map_docker_security_args, specPrivilegedArgs,
              PolicyConfig.capDropList, PolicyConfig.capAddList,
              PolicyConfig.securitySection] using main []
          | some p =>
            cases p with
            | true =>
              simpa [PolicyConfig.map_docker_security_args, specPrivilegedArgs,
                PolicyConfig.capDropList, PolicyConfig.capAddList,
                PolicyConfig.securitySection] using main []
            | false =>
              simpa [PolicyConfig.map_docker_security_args, specPrivilegedArgs,
                PolicyConfig.capDropList, PolicyConfig.capAddList,
                PolicyConfig.securitySection, List.append_assoc] using
                main ["--security-opt", "no-new-privileges"]

namespace Snpx

/-- Metadata of a snpx security policy (src/src/lib.rs lines 26-30). -/
structure Metadata where
  name : String
  description : String
deriving DecidableEq, Repr

/-- DockerCapabilities (src/src/lib.rs lines 70-76). -/
structure DockerCapabilities where
  drop : List String
  add : List String
deriving DecidableEq, Repr

/-- DockerUlimits (src/src/lib.rs lines 78-86). -/
structure DockerUlimits where
  nproc : Nat
  nofile : Nat
  fsize : Nat
deriving DecidableEq, Repr

/-- DockerSpec (src/src/lib.rs lines 48-68). -/
structure DockerSpec where
  capabilities : DockerCapabilities
  security_opts : List String
  user : String
  read_only_root_filesystem : Bool
  tmpfs : List String
  ulimits : DockerUlimits
  memory_limit : String
  cpu_limit : String
  pids_limit : Nat
deriving DecidableEq, Repr

/-- NetworkSpec (src/src/lib.rs lines 88-98). -/
structure NetworkSpec where
  policy : String
  dns_servers : List String
  allowed_domains : List String
  blocked_ports : List String
deriving DecidableEq, Repr

/-- FilesystemSpec (src/src/lib.rs lines 100-108). -/
structure FilesystemSpec where
  mount_options : List String
  allowed_paths : List String
  blocked_paths : List String
deriving DecidableEq, Repr

/-- SignalHandling (src/src/lib.rs lines 122-128). -/
structure SignalHandling where
  graceful_shutdown_timeout : String
  force_kill_timeout : String
deriving DecidableEq, Repr

/-- RuntimeSpec (src/src/lib.rs lines 110-120). -/
structure RuntimeSpec where
  timeout : String
  max_restart_attempts : Nat
  environment_whitelist : List String
  signal_handling : SignalHandling
deriving DecidableEq, Repr

/-- AuditSpec (src/src/lib.rs lines 130-140). -/
structure AuditSpec where
  log_level : String
  log_commands : Bool
  log_network_access : Bool
  log_file_access : Bool
deriving DecidableEq, Repr

/-- FalcoRule (src/src/lib.rs lines 163-175): a structured monitor rule. -/
structure FalcoRule where
  name : String
  description : String
  condition : String
  output : String
  priority : String
  action : String
deriving DecidableEq, Repr

/-- FalcoRuleSet (src/src/lib.rs lines 150-161): a named rule-set carrying
either structured rules or raw inline rule text. -/
structure FalcoRuleSet where
  name : String
  description : String
  enabled : Bool
  rules : List FalcoRule
  rule_content : Option String
deriving DecidableEq, Repr

/-- FalcoSpec (src/src/lib.rs lines 142-148): the monitor section. -/
structure FalcoSpec where
  enabled : Bool
  rules : List FalcoRuleSet
deriving DecidableEq, Repr

/-- PolicySpec (src/src/lib.rs lines 32-46). -/
structure PolicySpec where
  docker : DockerSpec
  network : NetworkSpec
  filesystem : FilesystemSpec
  runtime : RuntimeSpec
  audit : AuditSpec
  falco : FalcoSpec
deriving DecidableEq, Repr

/-- SecurityPolicy (src/src/lib.rs lines 17-24). -/
structure SecurityPolicy where
  api_version : String
  kind : String
  metadata : Metadata
  spec : PolicySpec
deriving DecidableEq, Repr

/-- The rendering of one structured Falco rule inside
SecurityPolicy::generate_falco_rule_file (src/src/lib.rs lines 226-248):
the name record line and the condition line are always pushed; the
description, output, priority and action lines only when non-empty; a
blank line terminates the record. -/
def renderFalcoRule (r : FalcoRule) : String :=
  "- rule: " ++ r.name ++ "\n"
    ++ (if r.description = "" then "" else "  desc: " ++ r.description ++ "\n")
    ++ ("  condition: " ++ r.condition ++ "\n")
    ++ (if r.output = "" then "" else "  output: " ++ r.output ++ "\n")
    ++ (if r.priority = "" then "" else "  priority: " ++ r.priority ++ "\n")
    ++ (if r.action = "" then "" else "  action: " ++ r.action ++ "\n")
    ++ "\n"

/-- Sequential rendering of a list of structured rules (the inner for
loop of generate_falco_rule_file). -/
def falcoRulesText : List FalcoRule → String
  | [] => ""
  | r :: t => renderFalcoRule r ++ falcoRulesText t

/-- The rendering contributed by one rule-set (src/src/lib.rs lines
213-249): disabled rule-sets contribute nothing; inline rule content is
copied verbatim followed by a newline; otherwise the structured rules are
rendered in order. -/
def renderFalcoRuleSet (rs : FalcoRuleSet) : String :=
  if !rs.enabled then ""
  else
    match rs.rule_content with
    | some content => content ++ "\n"
    | none => falcoRulesText rs.rules

/-- Sequential rendering of all rule-sets (the outer for loop of
generate_falco_rule_file). -/
def falcoRuleSetsText : List FalcoRuleSet → String
  | [] => ""
  | rs :: t => renderFalcoRuleSet rs ++ falcoRuleSetsText t

/-- The ambient process identity consulted by generate_falco_rule_file:
the platform temp directory and the process id. -/
structure ProcessEnv where
  temp_dir : String
  pid : Nat
deriving DecidableEq, Repr

/-- The rule-file path built by generate_falco_rule_file (src/src/lib.rs
lines 208-209): the temp directory joined with the fixed prefix, the rule
kind and the process id. -/
def falcoRuleFilePath (env : ProcessEnv) : String :=
  env.temp_dir ++ "/snpx-falco-rules-" ++ toString env.pid ++ ".yaml"

/-- SecurityPolicy::generate_falco_rule_file (src/src/lib.rs lines
203-253).  The file-system write is made explicit: the function returns
the path together with the content it writes there, and `none` models the
`Ok(None)` no-file signal.  The guard is exactly the source guard: not
enabled, or an empty rule-set list. -/
def SecurityPolicy.generate_falco_rule_file (p : SecurityPolicy) (env : ProcessEnv) :
    Option (String × String) :=
  if !p.spec.falco.enabled || p.spec.falco.rules.isEmpty then none
  else
    some (falcoRuleFilePath env,
      "# Falco rules generated by snpx\n" ++ falcoRuleSetsText p.spec.falco.rules)

/-- ContainerExecutor (src/src/lib.rs lines 295-301): the snpx executor
with optional security policy and the derived falco flag. -/
structure ContainerExecutor where
  docker_image : String
  verbose : Bool
  container_name : String
  security_policy : Option SecurityPolicy
  falco_enabled : Bool

/-- The Falco label block of ContainerExecutor::create_docker_args
(src/src/lib.rs lines 367-387): when falco is enabled, a policy is bound
and the generator produces a file, two labels are pushed — one carrying
the rule-file path, one the monitored-namespace marker. -/
def monitorLabelArgs (e : ContainerExecutor) (env : ProcessEnv) : List String :=
  if e.falco_enabled then
    match e.security_policy with
    | some policy =>
      match policy.generate_falco_rule_file env with
      | some (rule_file_path, _) =>
        ["--label", "falco.rules.file=" ++ rule_file_path,
         "--label", "io.kubernetes.pod.namespace=falco-monitored"]
      | none => []
    | none => []
  else []

/-- ContainerExecutor::create_docker_args (src/src/lib.rs lines 349-394),
as the sequence of pushes and extends of the source. -/
def ContainerExecutor.create_docker_args (e : ContainerExecutor) (r : Runner)
    (cmd_args : List String) (transport : Transport) (env : ProcessEnv) : List String :=
  let docker_args := ["run", "--rm", "-i", "--name", e.container_name]
  let docker_args := if r.requires_tty transport then docker_args ++ ["-t"] else docker_args
  let docker_args := docker_args ++ monitorLabelArgs e env
  let docker_args := docker_args ++ r.additional_docker_args
  let docker_args := docker_args ++ [e.docker_image]
  docker_args ++ cmd_args

end Snpx

namespace Common

/-- ContainerExecutor (src/common/src/lib.rs lines 57-62): the shared
executor holding a PolicyConfig. -/
structure ContainerExecutor where
  docker_image : String
  verbose : Bool
  container_name : String
  policy_config : PolicyConfig

/-- ContainerExecutor::create_docker_args (src/common/src/lib.rs lines
96-120), as the sequence of pushes and extends of the source. -/
def ContainerExecutor.create_docker_args (e : ContainerExecutor) (r : Runner)
    (cmd_args : List String) (transport : Transport) : List String :=
  let docker_args := ["run", "--rm", "-i", "--name", e.container_name]
  let docker_args := if r.requires_tty transport then docker_args ++ ["-t"] else docker_args
  let docker_args := docker_args ++ e.policy_config.get_all_docker_args
  let docker_args := docker_args ++ r.additional_docker_args
  let docker_args := docker_args ++ [e.docker_image]
  docker_args ++ cmd_args

end Common

/-- Which of the two racers of the executor wait resolves first
(src/common/src/lib.rs lines 144-155 and src/src/lib.rs lines 418-429):
either the container child process exits with a status, or the interrupt
signal arrives. -/
inductive RaceWinner where
  | childExited (status : Int)
  | interrupted
deriving DecidableEq, Repr

/-- How the executor wait ends: the session returns the child status to
its caller, or the whole process terminates with a fixed exit code. -/
inductive RunOutcome where
  | returned (status : Int)
  | exited (code : Nat)
deriving DecidableEq, Repr

/-- ContainerExecutor::cleanup (src/common/src/lib.rs lines 158-164 and
src/src/lib.rs lines 454-460): issues one "docker stop" invocation
addressed to the container name of the session, discards its outcome, and
always returns Ok. -/
def cleanup (container_name : String) : List (List String) × Except String Unit :=
  ([["stop", container_name]], Except.ok ())

/-- The select block of ContainerExecutor::run_containerized: the first
component lists the container-engine invocations issued after the race is
decided, the second the way the wait ends.  A normal child exit issues
nothing and returns the child status; an interrupt runs cleanup and then
terminates the process with code 130. -/
def run_containerized_race (container_name : String) (w : RaceWinner) :
    List (List String) × RunOutcome :=
  match w with
  | .childExited status => ([], RunOutcome.returned status)
  | .interrupted => ((cleanup container_name).1, RunOutcome.exited 130)

/-- Result of looking up the engine binary on the search path
(the which::which call of check_docker_available). -/
inductive WhichResult where
  | found (path : String)
  | notFound
deriving DecidableEq, Repr

/-- Result of spawning the "docker --version" probe: either the probe ran
and reported an exit status, or the probe process could not be executed. -/
inductive ProbeResult where
  | ran (status_success : Bool)
  | execFailure (msg : String)
deriving DecidableEq, Repr

/-- ContainerExecutor::check_docker_available (src/common/src/lib.rs
lines 83-94 and src/src/lib.rs lines 336-347): a missing binary yields
Ok(false); a present binary yields Ok of the success bit of the probe; only a
probe that cannot be executed yields an error (wrapped with context). -/
def check_docker_available (which_docker : WhichResult) (probe : ProbeResult) :
    Except String Bool :=
  match which_docker with
  | .found _ =>
    match probe with
    | .ran status_success => Except.ok status_success
    | .execFailure msg => Except.error ("Failed to execute docker --version: " ++ msg)
  | .notFound => Except.ok false

namespace Opa

/-- Metadata (src/src/opa.rs lines 26-30). -/
structure Metadata where
  name : String
  description : String
deriving DecidableEq, Repr

/-- CapabilitiesSpec (src/src/opa.rs lines 54-58). -/
structure CapabilitiesSpec where
  drop : List String
  add : List String
deriving DecidableEq, Repr

/-- UlimitsSpec (src/src/opa.rs lines 60-65). -/
structure UlimitsSpec where
  nproc : Nat
  nofile : Nat
  fsize : Nat
deriving DecidableEq, Repr

/-- DockerSpec (src/src/opa.rs lines 41-52). -/
structure DockerSpec where
  capabilities : CapabilitiesSpec
  security_opts : List String
  user : String
  read_only_root_filesystem : Bool
  tmpfs : List String
  ulimits : UlimitsSpec
  memory_limit : String
  cpu_limit : String
  pids_limit : Nat
deriving DecidableEq, Repr

/-- NetworkSpec (src/src/opa.rs lines 67-73). -/
structure NetworkSpec where
  policy : String
  dns_servers : List String
  allowed_domains : List String
  blocked_ports : List String
deriving DecidableEq, Repr

/-- FilesystemSpec (src/src/opa.rs lines 75-80). -/
structure FilesystemSpec where
  mount_options : List String
  allowed_paths : List String
  blocked_paths : List String
deriving DecidableEq, Repr

/-- SignalHandlingSpec (src/src/opa.rs lines 90-94). -/
structure SignalHandlingSpec where
  graceful_shutdown_timeout : String
  force_kill_timeout : String
deriving DecidableEq, Repr

/-- RuntimeSpec (src/src/opa.rs lines 82-88). -/
structure RuntimeSpec where
  timeout : String
  max_restart_attempts : Nat
  environment_whitelist : List String
  signal_handling : SignalHandlingSpec
deriving DecidableEq, Repr

/-- AuditSpec (src/src/opa.rs lines 96-102). -/
structure AuditSpec where
  log_level : String
  log_commands : Bool
  log_network_access : Bool
  log_file_access : Bool
deriving DecidableEq, Repr

/-- PolicySpec (src/src/opa.rs lines 32-39). -/
structure PolicySpec where
  docker : DockerSpec
  network : NetworkSpec
  filesystem : FilesystemSpec
  runtime : RuntimeSpec
  audit : AuditSpec
deriving DecidableEq, Repr

/-- SecurityPolicy (src/src/opa.rs lines 17-24). -/
structure SecurityPolicy where
  api_version : String
  kind : String
  metadata : Metadata
  spec : PolicySpec
deriving DecidableEq, Repr

/-- One interpolated literal line of a Rego list block: the source pushes
the line for each list value in order (src/src/opa.rs lines 143-145 and
the analogous loops). -/
def regoQuotedLines : List String → String
  | [] => ""
  | v :: t => "        \"" ++ v ++ "\",\n" ++ regoQuotedLines t

/-- The fixed Rego text from the package header up to the opening of the
allowed-paths list (src/src/opa.rs lines 134-142; consecutive push_str
literals merged). -/
def regoFix0 : String :=
  "package snpx.policy\n\n# Auto-generated from snpx.yaml\n\n# Filesystem policies\nallow_filesystem_access(path) \x7b\n    # Path is in allowed paths\n    allowed_paths = [\n"

/-- The fixed Rego text closing the allowed-paths section and opening the
blocked-paths list (src/src/opa.rs lines 146-152). -/
def regoFix1 : String :=
  "    ]\n    startswith_any(path, allowed_paths)\n\x7d\n\ndeny_filesystem_access(path) \x7b\n    # Path is in blocked paths\n    blocked_paths = [\n"

/-- The fixed Rego text closing the blocked-paths section and opening the
allowed-domains list (src/src/opa.rs lines 156-164). -/
def regoFix2 : String :=
  "    ]\n    startswith_any(path, blocked_paths)\n\x7d\n\n# Network policies\nallow_network_access(domain) \x7b\n    # Domain is in allowed domains\n    allowed_domains = [\n"

/-- The fixed Rego text closing the allowed-domains section and opening
the blocked-ports list (src/src/opa.rs lines 168-174). -/
def regoFix3 : String :=
  "    ]\n    domain_matches(domain, allowed_domains)\n\x7d\n\ndeny_network_port(port) \x7b\n    # Port is in blocked ports\n    blocked_ports = [\n"

/-- The fixed Rego text closing the blocked-ports section (src/src/opa.rs
lines 178-180). -/
def regoFix4 : String :=
  "    ]\n    port == blocked_ports[_]\n\x7d\n\n"

/-- The shared helper predicates emitted once at the end of the Rego
program (src/src/opa.rs lines 183-194): the prefix-match helper defined
once, and the domain-match helper defined twice — an exact variant and a
suffix variant. -/
def regoHelpers : String :=
  "# Helper functions\nstartswith_any(str, prefixes) \x7b\n    startswith(str, prefixes[_])\n\x7d\n\ndomain_matches(domain, allowed) \x7b\n    allowed[_] == domain\n\x7d\ndomain_matches(domain, allowed) \x7b\n    endswith(domain, concat(\".\", allowed[_]))\n\x7d\n"

/-- The section bodies of the Rego program: everything before the helper
block, in source order. -/
def regoBody (p : SecurityPolicy) : String :=
  regoFix0 ++ regoQuotedLines p.spec.filesystem.allowed_paths
    ++ regoFix1 ++ regoQuotedLines p.spec.filesystem.blocked_paths
    ++ regoFix2 ++ regoQuotedLines p.spec.network.allowed_domains
    ++ regoFix3 ++ regoQuotedLines p.spec.network.blocked_ports
    ++ regoFix4

/-- OpaManager::policy_to_rego (src/src/opa.rs lines 132-197).  The
OpaManager receiver state is never consulted by this method and the
Result is always Ok, so the translation is a plain function of the
policy. -/
def policy_to_rego (p : SecurityPolicy) : String :=
  regoBody p ++ regoHelpers

end Opa

/-- Number of occurrences of a pattern in a character list: one per
position at which the pattern is a prefix of the remaining suffix.
Intended for non-empty patterns. -/
def countOcc (pat : List Char) : List Char → Nat
  | [] => 0
  | c :: s => (if pat.isPrefixOf (c :: s) then 1 else 0) + countOcc pat s

lemma isPrefixOf_append_avoid (c : Char) :
    ∀ (pat x y : List Char), c ∉ pat →
      (pat.isPrefixOf (x ++ c :: y) = pat.isPrefixOf x)
  | [], x, y, _ => by simp [List.isPrefixOf]
  | p :: ps, [], y, hc => by
    have hpc : ¬ (p = c) := fun h => hc (h ▸ List.mem_cons_self p ps)
    simp [List.isPrefixOf, hpc]
  | p :: ps, a :: x, y, hc => by
    have hcs : c ∉ ps := fun h => hc (List.mem_cons_of_mem p h)
    simp [List.isPrefixOf, isPrefixOf_append_avoid c ps x y hcs]

lemma countOcc_split (pat : List Char) (c : Char) (hc : c ∉ pat) (hne : pat ≠ []) :
    ∀ (x y : List Char), countOcc pat (x ++ c :: y) = countOcc pat x + countOcc pat y
  | [], y => by
    obtain ⟨p, ps, rfl⟩ : ∃ p ps, pat = p :: ps := by
      cases pat with
      | nil => exact absurd rfl hne
      | cons p ps => exact ⟨p, ps, rfl⟩
    have hpc : ¬ (p = c) := fun h => hc (h ▸ List.mem_cons_self p ps)
    simp [countOcc, List.isPrefixOf, hpc]
  | a :: x, y => by
    have h1 : pat.isPrefixOf ((a :: x) ++ c :: y) = pat.isPrefixOf (a :: x) :=
      isPrefixOf_append_avoid c pat (a :: x) y hc
    have h2 := countOcc_split pat c hc hne x y
    simp only [List.cons_append] at h1
    simp only [List.cons_append, countOcc, List.append_eq, h1, h2]
    omega

lemma countOcc_seg (pat : List Char) (s : String) (w : List Char)
    (hs : s.data = w ++ ['\n']) (hn : '\n' ∉ pat) (hne : pat ≠ []) (rest : List Char) :
    countOcc pat (s.data ++ rest) = countOcc pat w + countOcc pat rest := by
  rw [hs, List.append_assoc, List.singleton_append]
  exact countOcc_split pat '\n' hn hne w rest

lemma countOcc_quotedLines (pat : List Char) (hq : '"' ∉ pat) (hcm : ',' ∉ pat)
    (hn : '\n' ∉ pat) (hne : pat ≠ []) (hsp : countOcc pat "        ".data = 0) :
    ∀ (vs : List String) (rest : List Char), (∀ v ∈ vs, countOcc pat v.data = 0) →
      countOcc pat ((Opa.regoQuotedLines vs).data ++ rest) = countOcc pat rest
  | [], rest, _ => by simp [Opa.regoQuotedLines]
  | v :: t, rest, hv => by
    have hvz : countOcc pat v.data = 0 := hv v (List.mem_cons_self v t)
    have htz : ∀ u ∈ t, countOcc pat u.data = 0 := fun u hu => hv u (List.mem_cons_of_mem v hu)
    have hshape : (Opa.regoQuotedLines (v :: t)).data ++ rest =
        "        ".data ++ '"' ::
          (v.data ++ '"' :: ',' ::
            '\n' :: ((Opa.regoQuotedLines t).data ++ rest)) := by
      show (("        \"" ++ v ++ "\",\n") ++ Opa.regoQuotedLines t).data ++ rest = _
      simp [String.data_append]
    have hcomma : ∀ z : List Char, countOcc pat (',' :: '\n' :: z) = countOcc pat z := by
      intro z
      have h1 : countOcc pat ([] ++ ',' :: ('\n' :: z)) = countOcc pat [] + countOcc pat ('\n' :: z) :=
        countOcc_split pat ',' hcm hne [] ('\n' :: z)
      have h2 : countOcc pat ([] ++ '\n' :: z) = countOcc pat [] + countOcc pat z :=
        countOcc_split pat '\n' hn hne [] z
      simpa [countOcc] using h1.trans (by simpa [countOcc] using h2)
    rw [hshape, countOcc_split pat '"' hq hne, countOcc_split pat '"' hq hne,
      hcomma, countOcc_quotedLines pat hq hcm hn hne hsp t rest htz]
    simp [hsp, hvz]

/-- regoFix0 without its final newline, for segment counting. -/
def regoFix0w : String :=
  "package snpx.policy\n\n# Auto-generated from snpx.yaml\n\n# Filesystem policies\nallow_filesystem_access(path) \x7b\n    # Path is in allowed paths\n    allowed_paths = ["

/-- regoFix1 without its final newline, for segment counting. -/
def regoFix1w : String :=
  "    ]\n    startswith_any(path, allowed_paths)\n\x7d\n\ndeny_filesystem_access(path) \x7b\n    # Path is in blocked paths\n    blocked_paths = ["

/-- regoFix2 without its final newline, for segment counting. -/
def regoFix2w : String :=
  "    ]\n    startswith_any(path, blocked_paths)\n\x7d\n\n# Network policies\nallow_network_access(domain) \x7b\n    # Domain is in allowed domains\n    allowed_domains = ["

/-- regoFix3 without its final newline, for segment counting. -/
def regoFix3w : String :=
  "    ]\n    domain_matches(domain, allowed_domains)\n\x7d\n\ndeny_network_port(port) \x7b\n    # Port is in blocked ports\n    blocked_ports = ["

/-- regoFix4 without its final newline, for segment counting. -/
def regoFix4w : String :=
  "    ]\n    port == blocked_ports[_]\n\x7d\n"

lemma countOcc_rego (pat : List Char) (p : Opa.SecurityPolicy)
    (hq : '"' ∉ pat) (hcm : ',' ∉ pat) (hn : '\n' ∉ pat) (hne : pat ≠ [])
    (hsp : countOcc pat "        ".data = 0)
    (hv : ∀ v ∈ p.spec.filesystem.allowed_paths ++ p.spec.filesystem.blocked_paths
            ++ p.spec.network.allowed_domains ++ p.spec.network.blocked_ports,
          countOcc pat v.data = 0) :
    countOcc pat (Opa.policy_to_rego p).data =
      countOcc pat regoFix0w.data + countOcc pat regoFix1w.data
        + countOcc pat regoFix2w.data + countOcc pat regoFix3w.data
        + countOcc pat regoFix4w.data + countOcc pat Opa.regoHelpers.data := by
  have hv1 : ∀ v ∈ p.spec.filesystem.allowed_paths, countOcc pat v.data = 0 := by
    intro v h
    exact hv v (by simp [h])
  have hv2 : ∀ v ∈ p.spec.filesystem.blocked_paths, countOcc pat v.data = 0 := by
    intro v h
    exact hv v (by simp [h])
  have hv3 : ∀ v ∈ p.spec.network.allowed_domains, countOcc pat v.data = 0 := by
    intro v h
    exact hv v (by simp [h])
  have hv4 : ∀ v ∈ p.spec.network.blocked_ports, countOcc pat v.data = 0 := by
    intro v h
    exact hv v (by simp [h])
  have h0 : Opa.regoFix0.data = regoFix0w.data ++ ['\n'] := rfl
  have h1 : Opa.regoFix1.data = regoFix1w.data ++ ['\n'] := rfl
  have h2 : Opa.regoFix2.data = regoFix2w.data ++ ['\n'] := rfl
  have h3 : Opa.regoFix3.data = regoFix3w.data ++ ['\n'] := rfl
  have h4 : Opa.regoFix4.data = regoFix4w.data ++ ['\n'] := rfl
  have hshape : (Opa.policy_to_rego p).data =
      Opa.regoFix0.data ++ ((Opa.regoQuotedLines p.spec.filesystem.allowed_paths).data
        ++ (Opa.regoFix1.data ++ ((Opa.regoQuotedLines p.spec.filesystem.blocked_paths).data
        ++ (Opa.regoFix2.data ++ ((Opa.regoQuotedLines p.spec.network.allowed_domains).data
        ++ (Opa.regoFix3.data ++ ((Opa.regoQuotedLines p.spec.network.blocked_ports).data
        ++ (Opa.regoFix4.data ++ Opa.regoHelpers.data)))))))) := by
    simp [Opa.policy_to_rego, Opa.regoBody, String.data_append]
  rw [hshape,
    countOcc_seg pat Opa.regoFix0 regoFix0w.data h0 hn hne,
    countOcc_quotedLines pat hq hcm hn hne hsp _ _ hv1,
    countOcc_seg pat Opa.regoFix1 regoFix1w.data h1 hn hne,
    countOcc_quotedLines pat hq hcm hn hne hsp _ _ hv2,
    countOcc_seg pat Opa.regoFix2 regoFix2w.data h2 hn hne,
    countOcc_quotedLines pat hq hcm hn hne hsp _ _ hv3,
    countOcc_seg pat Opa.regoFix3 regoFix3w.data h3 hn hne,
    countOcc_quotedLines pat hq hcm hn hne hsp _ _ hv4,
    countOcc_seg pat Opa.regoFix4 regoFix4w.data h4 hn hne]
  omega

/-- The package/header declaration text of the Rego program. -/
def pkgPattern : List Char := "package snpx.policy".data

/-- The name of the shared prefix-match helper predicate. -/
def swPattern : List Char := "startswith_any".data

/-- The name of the shared domain-match helper predicate. -/
def dmPattern : List Char := "domain_matches".data

/-- A fully-empty policy document: every optional section absent. -/
def emptyPolicyDocument : PolicyDocument := ⟨⟨none, none⟩⟩

/-- A policy document whose sections are all present but hold empty
lists and no explicit flags. -/
def hollowPolicyDocument : PolicyDocument :=
  ⟨⟨some ⟨some ⟨some ⟨none, some ⟨some [], some []⟩⟩⟩⟩, some ⟨some []⟩⟩⟩

/-- A config binding a document that consists of exactly one docker
security section, for stating the security-arg builder facts. -/
def secConfig (sec : DockerSecurity) : PolicyConfig :=
  ⟨some ⟨⟨some ⟨some ⟨some sec⟩⟩, none⟩⟩⟩

/-- A config binding a document that consists of exactly one storage
allow list, for stating the mount builder facts. -/
def storageConfig (allow_list : List StoragePermission) : PolicyConfig :=
  ⟨some ⟨⟨none, some ⟨some allow_list⟩⟩⟩⟩

/-- C9: for an absent policy (PolicyConfig::new, which is also what the
CLI builds when no policy file is found on the search path) and for a
fully-empty policy document, the engine-arg builder returns the empty
argument list; since the builder is total, no error is raised. -/
theorem c9_empty_policy_empty_args :
    PolicyConfig.new.policy = none
    ∧ PolicyConfig.new.get_all_docker_args = []
    ∧ (PolicyConfig.mk (some emptyPolicyDocument)).get_all_docker_args = []
    ∧ (PolicyConfig.mk (some hollowPolicyDocument)).get_all_docker_args = [] :=
  ⟨rfl, rfl, rfl, rfl⟩

/-- C4: the combined engine-arg list is the mount pairs — one block per
storage permission, in allow-list order — followed by the security args:
the hardening pair, then the drop pairs in list order, then the add pairs
in list order. -/
theorem c4_get_all_docker_args_order (c : PolicyConfig) :
    c.get_all_docker_args =
      (c.storageAllow.map mountPair).flatten
        ++ (specPrivilegedArgs c
          ++ (c.capDropList.map capDropPair).flatten
          ++ (c.capAddList.map capAddPair).flatten) := by
  unfold PolicyConfig.get_all_docker_args
  rw [map_file_mounts_eq c, map_docker_security_args_eq c]

/-- C2: the mount builder emits, for each storage permission in allow-list
order, the pair "-v" "path:path:mode" when the URI carries the fs scheme
(path the URI with the scheme stripped, mode rw exactly when the access
set contains Write) and nothing otherwise; in particular the permission
with URI fs:///usr/local/lib and no write capability emits
"-v" "/usr/local/lib:/usr/local/lib:ro". -/
theorem c2_map_file_mounts (c : PolicyConfig) :
    c.map_file_mounts = (c.storageAllow.map mountPair).flatten
    ∧ mountPair ⟨"fs:///usr/local/lib", [AccessType.Read]⟩
      = ["-v", "/usr/local/lib:/usr/local/lib:ro"]
    ∧ mountPair ⟨"fs:///data", [AccessType.Read, AccessType.Write]⟩
      = ["-v", "/data:/data:rw"]
    ∧ mountPair ⟨"s3://bucket", [AccessType.Read, AccessType.Write]⟩ = []
    ∧ (storageConfig [⟨"fs:///usr/local/lib", [AccessType.Read]⟩,
        ⟨"s3://bucket", [AccessType.Write]⟩]).map_file_mounts
      = ["-v", "/usr/local/lib:/usr/local/lib:ro"] := by
  refine ⟨map_file_mounts_eq c, ?_, ?_, ?_, ?_⟩ <;> decide

/-- C3 counterexample: for the policy whose docker security section drops
the ALL capability, the builder emits the value "All" — the Debug
rendering of the capability, as pinned by the in-repository test —
and not the value "ALL" stated by the claim. -/
theorem c3_cap_drop_counterexample :
    (secConfig ⟨none, some ⟨some [Capability.All], none⟩⟩).map_docker_security_args
      = ["--cap-drop", "All"]
    ∧ (secConfig ⟨none, some ⟨some [Capability.All], none⟩⟩).map_docker_security_args
      ≠ ["--cap-drop", "ALL"] := by
  refine ⟨rfl, ?_⟩
  decide

/-- C3 (amended): dropping the ALL capability emits the pair "--cap-drop"
"All" (the Debug rendering of the capability); privileged explicitly
false emits the pair "--security-opt" "no-new-privileges"; drop-list
pairs come in list order before add-list pairs; absent fields emit
nothing. -/
theorem c3_security_args_amended (sec : DockerSecurity) :
    (secConfig sec).map_docker_security_args
      = specPrivilegedArgs (secConfig sec)
        ++ ((secConfig sec).capDropList.map capDropPair).flatten
        ++ ((secConfig sec).capAddList.map capAddPair).flatten
    ∧ (secConfig ⟨none, some ⟨some [Capability.All], none⟩⟩).map_docker_security_args
      = ["--cap-drop", "All"]
    ∧ (secConfig ⟨some false, none⟩).map_docker_security_args
      = ["--security-opt", "no-new-privileges"]
    ∧ (secConfig ⟨none, none⟩).map_docker_security_args = []
    ∧ (secConfig ⟨some false, some ⟨some [Capability.All], some [Capability.other "NetAdmin"]⟩⟩).map_docker_security_args
      = ["--security-opt", "no-new-privileges", "--cap-drop", "All", "--cap-add", "NetAdmin"] := by
  exact ⟨map_docker_security_args_eq (secConfig sec), rfl, rfl, rfl, rfl⟩

/-- C5: in the executor wait, an interrupt causes exactly one stop
request, addressed to the session container name with its outcome
discarded (cleanup always returns Ok), followed by process termination
with exit code 130; a normal child exit returns the status of the child itself
with no stop request issued. -/
theorem c5_interrupt_and_exit (container_name : String) (status : Int) :
    run_containerized_race container_name (RaceWinner.childExited status)
      = ([], RunOutcome.returned status)
    ∧ run_containerized_race container_name RaceWinner.interrupted
      = ([["stop", container_name]], RunOutcome.exited 130)
    ∧ (run_containerized_race container_name RaceWinner.interrupted).1.length = 1
    ∧ (cleanup container_name).2 = Except.ok () :=
  ⟨rfl, rfl, rfl, rfl⟩

/-- C10: the availability check maps a missing engine binary to Ok(false),
a present binary to Ok of the success bit of the probe, and yields an error
exactly for a probe process that cannot be executed. -/
theorem c10_check_docker_available (probe : ProbeResult) (path msg : String) (ok : Bool) :
    check_docker_available WhichResult.notFound probe = Except.ok false
    ∧ check_docker_available (WhichResult.found path) (ProbeResult.ran ok) = Except.ok ok
    ∧ check_docker_available (WhichResult.found path) (ProbeResult.execFailure msg)
      = Except.error ("Failed to execute docker --version: " ++ msg) :=
  ⟨rfl, rfl, rfl⟩

/-- C1: both executors build the invocation in the fixed order — the
baseline tokens run, rm, interactive, name and the unique container name;
the terminal flag exactly when the tty predicate of the runner holds for the
transport; then, for the snpx executor, the two monitor labels when
monitoring is active (the rule-file-path label and the
monitored-namespace label, as the last two conjuncts state); then the
policy-derived args from the engine-arg builder (present only in the
common executor, which has no monitoring; the snpx executor binds no
engine-arg builder, so its contribution there is empty); then the
extra engine args of the runner; then the image; then the wrapped command
name, the runner flags and the user pass-through arguments in that
order. -/
theorem c1_create_docker_args_order (e : Common.ContainerExecutor)
    (se : Snpx.ContainerExecutor) (r : Runner) (flags args : List String)
    (transport : Transport) (env : Snpx.ProcessEnv)
    (di : String) (vb : Bool) (cn : String) (p : Snpx.SecurityPolicy) :
    e.create_docker_args r (r.build_command_args flags args) transport
      = ["run", "--rm", "-i", "--name", e.container_name]
        ++ (if r.requires_tty transport then ["-t"] else [])
        ++ e.policy_config.get_all_docker_args
        ++ r.additional_docker_args
        ++ [e.docker_image]
        ++ (r.command :: (flags ++ args))
    ∧ se.create_docker_args r (r.build_command_args flags args) transport env
      = ["run", "--rm", "-i", "--name", se.container_name]
        ++ (if r.requires_tty transport then ["-t"] else [])
        ++ Snpx.monitorLabelArgs se env
        ++ r.additional_docker_args
        ++ [se.docker_image]
        ++ (r.command :: (flags ++ args))
    ∧ Snpx.monitorLabelArgs ⟨di, vb, cn, some p, true⟩ env
      = (match p.generate_falco_rule_file env with
          | some (path, _) =>
            ["--label", "falco.rules.file=" ++ path,
             "--label", "io.kubernetes.pod.namespace=falco-monitored"]
          | none => [])
    ∧ Snpx.monitorLabelArgs ⟨di, vb, cn, some p, false⟩ env = [] := by
  refine ⟨?_, ?_, rfl, rfl⟩ <;>
  · cases h : r.requires_tty transport <;>
      simp [Common.ContainerExecutor.create_docker_args,
        Snpx.ContainerExecutor.create_docker_args, Runner.build_command_args, h]

/-- C8: the three translators are deterministic pure functions of the
document: on equal inputs the engine-arg builder and the Rego translator
return equal output, and the rendered Falco rule text is moreover
independent of the ambient process identity (temp directory and pid) that
only determines the file path. -/
theorem c8_translators_deterministic (c c' : PolicyConfig)
    (p p' : Opa.SecurityPolicy) (s s' : Snpx.SecurityPolicy)
    (env1 env2 : Snpx.ProcessEnv)
    (hc : c = c') (hp : p = p') (hs : s = s') :
    c.get_all_docker_args = c'.get_all_docker_args
    ∧ Opa.policy_to_rego p = Opa.policy_to_rego p'
    ∧ (s.generate_falco_rule_file env1).map Prod.snd
      = (s'.generate_falco_rule_file env2).map Prod.snd := by
  subst hc
  subst hp
  subst hs
  refine ⟨rfl, rfl, ?_⟩
  unfold Snpx.SecurityPolicy.generate_falco_rule_file
  cases h : (!s.spec.falco.enabled || s.spec.falco.rules.isEmpty) <;> simp [h]

lemma infix_component {x whole : List Char} (pre post : List Char)
    (h : whole = pre ++ (x ++ post)) : x <:+: whole :=
  ⟨pre, post, by simp [h, List.append_assoc]⟩

lemma string_append_assoc (a b c : String) : a ++ b ++ c = a ++ (b ++ c) :=
  String.ext (by simp [String.data_append, List.append_assoc])

lemma falcoRulesText_append :
    ∀ (a b : List Snpx.FalcoRule),
      Snpx.falcoRulesText (a ++ b) = Snpx.falcoRulesText a ++ Snpx.falcoRulesText b
  | [], b => by simp [Snpx.falcoRulesText]
  | r :: t, b => by
    simp [Snpx.falcoRulesText, falcoRulesText_append t b, string_append_assoc]

lemma falcoRuleSetsText_append :
    ∀ (a b : List Snpx.FalcoRuleSet),
      Snpx.falcoRuleSetsText (a ++ b) = Snpx.falcoRuleSetsText a ++ Snpx.falcoRuleSetsText b
  | [], b => by simp [Snpx.falcoRuleSetsText]
  | rs :: t, b => by
    simp [Snpx.falcoRuleSetsText, falcoRuleSetsText_append t b, string_append_assoc]

lemma renderFalcoRule_data (r : Snpx.FalcoRule) :
    (Snpx.renderFalcoRule r).data =
      ("- rule: " ++ r.name ++ "\n").data
        ++ ((if r.description = "" then "" else "  desc: " ++ r.description ++ "\n").data
        ++ (("  condition: " ++ r.condition ++ "\n").data
        ++ ((if r.output = "" then "" else "  output: " ++ r.output ++ "\n").data
        ++ ((if r.priority = "" then "" else "  priority: " ++ r.priority ++ "\n").data
        ++ ((if r.action = "" then "" else "  action: " ++ r.action ++ "\n").data
        ++ "\n".data))))) := by
  simp [Snpx.renderFalcoRule, String.data_append, List.append_assoc]

lemma renderFalcoRule_line_infix (r : Snpx.FalcoRule) :
    ("- rule: " ++ r.name ++ "\n").data <:+: (Snpx.renderFalcoRule r).data
    ∧ ("  condition: " ++ r.condition ++ "\n").data <:+: (Snpx.renderFalcoRule r).data
    ∧ (r.description ≠ "" →
        ("  desc: " ++ r.description ++ "\n").data <:+: (Snpx.renderFalcoRule r).data)
    ∧ (r.output ≠ "" →
        ("  output: " ++ r.output ++ "\n").data <:+: (Snpx.renderFalcoRule r).data)
    ∧ (r.priority ≠ "" →
        ("  priority: " ++ r.priority ++ "\n").data <:+: (Snpx.renderFalcoRule r).data)
    ∧ (r.action ≠ "" →
        ("  action: " ++ r.action ++ "\n").data <:+: (Snpx.renderFalcoRule r).data) := by
  refine ⟨?_, ?_, ?_, ?_, ?_, ?_⟩
  · exact infix_component []
      ((if r.description = "" then "" else "  desc: " ++ r.description ++ "\n").data
        ++ (("  condition: " ++ r.condition ++ "\n").data
        ++ ((if r.output = "" then "" else "  output: " ++ r.output ++ "\n").data
        ++ ((if r.priority = "" then "" else "  priority: " ++ r.priority ++ "\n").data
        ++ ((if r.action = "" then "" else "  action: " ++ r.action ++ "\n").data
        ++ "\n".data)))))
      (by rw [renderFalcoRule_data r]; simp)
  · exact infix_component
      (("- rule: " ++ r.name ++ "\n").data
        ++ (if r.description = "" then "" else "  desc: " ++ r.description ++ "\n").data)
      ((if r.output = "" then "" else "  output: " ++ r.output ++ "\n").data
        ++ ((if r.priority = "" then "" else "  priority: " ++ r.priority ++ "\n").data
        ++ ((if r.action = "" then "" else "  action: " ++ r.action ++ "\n").data
        ++ "\n".data)))
      (by rw [renderFalcoRule_data r]; simp [List.append_assoc])
  · intro h
    exact infix_component (("- rule: " ++ r.name ++ "\n").data)
      (("  condition: " ++ r.condition ++ "\n").data
        ++ ((if r.output = "" then "" else "  output: " ++ r.output ++ "\n").data
        ++ ((if r.priority = "" then "" else "  priority: " ++ r.priority ++ "\n").data
        ++ ((if r.action = "" then "" else "  action: " ++ r.action ++ "\n").data
        ++ "\n".data))))
      (by rw [renderFalcoRule_data r, if_neg h])
  · intro h
    exact infix_component
      (("- rule: " ++ r.name ++ "\n").data
        ++ ((if r.description = "" then "" else "  desc: " ++ r.description ++ "\n").data
        ++ ("  condition: " ++ r.condition ++ "\n").data))
      ((if r.priority = "" then "" else "  priority: " ++ r.priority ++ "\n").data
        ++ ((if r.action = "" then "" else "  action: " ++ r.action ++ "\n").data
        ++ "\n".data))
      (by rw [renderFalcoRule_data r, if_neg h]; simp [List.append_assoc])
  · intro h
    exact infix_component
      (("- rule: " ++ r.name ++ "\n").data
        ++ ((if r.description = "" then "" else "  desc: " ++ r.description ++ "\n").data
        ++ (("  condition: " ++ r.condition ++ "\n").data
        ++ (if r.output = "" then "" else "  output: " ++ r.output ++ "\n").data)))
      ((if r.action = "" then "" else "  action: " ++ r.action ++ "\n").data
        ++ "\n".data)
      (by rw [renderFalcoRule_data r, if_neg h]; simp [List.append_assoc])
  · intro h
    exact infix_component
      (("- rule: " ++ r.name ++ "\n").data
        ++ ((if r.description = "" then "" else "  desc: " ++ r.description ++ "\n").data
        ++ (("  condition: " ++ r.condition ++ "\n").data
        ++ ((if r.output = "" then "" else "  output: " ++ r.output ++ "\n").data
        ++ (if r.priority = "" then "" else "  priority: " ++ r.priority ++ "\n").data))))
      ("\n".data)
      (by rw [renderFalcoRule_data r, if_neg h]; simp [List.append_assoc])

lemma renderFalcoRule_infix_of_mem {r : Snpx.FalcoRule} {rules : List Snpx.FalcoRule}
    (h : r ∈ rules) :
    (Snpx.renderFalcoRule r).data <:+: (Snpx.falcoRulesText rules).data := by
  obtain ⟨s, t, rfl⟩ := List.append_of_mem h
  exact infix_component ((Snpx.falcoRulesText s).data) ((Snpx.falcoRulesText t).data)
    (by rw [falcoRulesText_append]
        simp [Snpx.falcoRulesText, String.data_append, List.append_assoc])

lemma renderFalcoRuleSet_infix_of_mem {rs : Snpx.FalcoRuleSet}
    {sets : List Snpx.FalcoRuleSet} (h : rs ∈ sets) :
    (Snpx.renderFalcoRuleSet rs).data <:+: (Snpx.falcoRuleSetsText sets).data := by
  obtain ⟨s, t, rfl⟩ := List.append_of_mem h
  exact infix_component ((Snpx.falcoRuleSetsText s).data) ((Snpx.falcoRuleSetsText t).data)
    (by rw [falcoRuleSetsText_append]
        simp [Snpx.falcoRuleSetsText, String.data_append, List.append_assoc])

lemma infix_extend_left {x m : List Char} (pre : List Char) (h : x <:+: m) :
    x <:+: pre ++ m := by
  obtain ⟨s, t, rfl⟩ := h
  exact ⟨pre ++ s, t, by simp [List.append_assoc]⟩

/-- The serde Default docker section of a snpx policy: every field takes
its inert default. -/
def Snpx.defaultDockerSpec : Snpx.DockerSpec :=
  ⟨⟨[], []⟩, [], "", false, [], ⟨0, 0, 0⟩, "", "", 0⟩

/-- A snpx security policy whose non-monitor sections take their serde
defaults, with the given monitor section. -/
def Snpx.mkFalcoPolicy (f : Snpx.FalcoSpec) : Snpx.SecurityPolicy :=
  ⟨"v1", "SecurityPolicy", ⟨"test-policy", "Test policy"⟩,
    ⟨Snpx.defaultDockerSpec, ⟨"", [], [], []⟩, ⟨[], [], []⟩,
      ⟨"", 0, [], ⟨"", ""⟩⟩, ⟨"", false, false, false⟩, f⟩⟩

/-- A monitor section that is enabled but whose only rule-set is disabled
and empty: it has zero non-empty rule-sets, yet its rule-set list is
non-empty. -/
def c6CexPolicy : Snpx.SecurityPolicy :=
  Snpx.mkFalcoPolicy ⟨true, [⟨"empty-set", "", false, [], none⟩]⟩

/-- C6 counterexample: for an enabled monitor section with zero non-empty
rule-sets (one disabled, empty rule-set), the generator does not return
the no-file signal — it writes a header-only file — contradicting the
claimed "exactly when". -/
theorem c6_empty_ruleset_counterexample :
    c6CexPolicy.generate_falco_rule_file ⟨"/tmp", 42⟩
      = some ("/tmp/snpx-falco-rules-42.yaml", "# Falco rules generated by snpx\n")
    ∧ c6CexPolicy.generate_falco_rule_file ⟨"/tmp", 42⟩ ≠ none := by
  refine ⟨?_, ?_⟩ <;> decide

/-- C6 (amended): the generator returns the no-file signal exactly when
monitoring is disabled or the rule-set list is empty (an enabled section
whose rule-sets are all disabled or empty still produces a header-only
file); otherwise it returns the path — the platform temp directory joined
with the fixed prefix, rule kind and process id — together with content
that is the header comment followed by the rendered rule-sets, and that
content contains, for every enabled rule-set, its inline rule text
verbatim, or for every structured rule its name and condition records
always and its description, output, priority and action records exactly
when those fields are non-empty. -/
theorem c6_generate_falco_rule_file_amended (p : Snpx.SecurityPolicy) (env : Snpx.ProcessEnv) :
    (p.generate_falco_rule_file env = none
      ↔ (p.spec.falco.enabled = false ∨ p.spec.falco.rules = []))
    ∧ (∀ path content, p.generate_falco_rule_file env = some (path, content) →
        path = Snpx.falcoRuleFilePath env
        ∧ content = "# Falco rules generated by snpx\n"
            ++ Snpx.falcoRuleSetsText p.spec.falco.rules
        ∧ ∀ rs ∈ p.spec.falco.rules, rs.enabled = true →
            (∀ c, rs.rule_content = some c → c.data <:+: content.data)
            ∧ (rs.rule_content = none → ∀ r ∈ rs.rules,
                ("- rule: " ++ r.name ++ "\n").data <:+: content.data
                ∧ ("  condition: " ++ r.condition ++ "\n").data <:+: content.data
                ∧ (r.description ≠ "" →
                    ("  desc: " ++ r.description ++ "\n").data <:+: content.data)
                ∧ (r.output ≠ "" →
                    ("  output: " ++ r.output ++ "\n").data <:+: content.data)
                ∧ (r.priority ≠ "" →
                    ("  priority: " ++ r.priority ++ "\n").data <:+: content.data)
                ∧ (r.action ≠ "" →
                    ("  action: " ++ r.action ++ "\n").data <:+: content.data))) := by
  constructor
  · unfold Snpx.SecurityPolicy.generate_falco_rule_file
    cases he : p.spec.falco.enabled <;> cases hr : p.spec.falco.rules <;> simp [he, hr]
  · intro path content hsome
    unfold Snpx.SecurityPolicy.generate_falco_rule_file at hsome
    by_cases hg : (!p.spec.falco.enabled || p.spec.falco.rules.isEmpty) = true
    · simp [hg] at hsome
    · rw [if_neg hg] at hsome
      obtain ⟨hpath, hcontent⟩ := Prod.mk.injEq .. ▸ Option.some.injEq .. ▸ hsome
      refine ⟨hpath.symm, hcontent.symm, ?_⟩
      intro rs hrs hen
      have hset : (Snpx.renderFalcoRuleSet rs).data <:+: content.data := by
        rw [← hcontent]
        rw [String.data_append]
        exact infix_extend_left _ (renderFalcoRuleSet_infix_of_mem hrs)
      have hsetval : Snpx.renderFalcoRuleSet rs =
          (match rs.rule_content with
            | some c => c ++ "\n"
            | none => Snpx.falcoRulesText rs.rules) := by
        unfold Snpx.renderFalcoRuleSet
        rw [hen]
        rfl
      constructor
      · intro c hc
        have : c.data <:+: (Snpx.renderFalcoRuleSet rs).data := by
          rw [hsetval, hc]
          exact infix_component [] ("\n".data) (by simp [String.data_append])
        exact this.trans hset
      · intro hc r hr
        have hrule : (Snpx.renderFalcoRule r).data <:+: content.data := by
          refine List.IsInfix.trans ?_ hset
          rw [hsetval, hc]
          exact renderFalcoRule_infix_of_mem hr
        obtain ⟨h1, h2, h3, h4, h5, h6⟩ := renderFalcoRule_line_infix r
        exact ⟨h1.trans hrule, h2.trans hrule,
          fun h => (h3 h).trans hrule, fun h => (h4 h).trans hrule,
          fun h => (h5 h).trans hrule, fun h => (h6 h).trans hrule⟩

/-- The monitor section of the in-repository falco integration test
(src/src/lib.rs lines 704-747): one enabled rule-set with one full
structured rule. -/
def snpxTestPolicy : Snpx.SecurityPolicy :=
  Snpx.mkFalcoPolicy ⟨true,
    [⟨"test-ruleset", "Test ruleset", true,
      [⟨"test-rule", "Test rule", "open_write and fd.name = \"/etc/passwd\"",
        "Write to /etc/passwd (user=%user.name)", "WARNING", "terminate"⟩],
      none⟩]⟩

/-- C6 witness: the amended theorem applied to the test policy in a
concrete environment — the generator returns the expected path, and the
rendered content contains the condition record of the rule. -/
theorem c6_generate_falco_rule_file_amended_witness :
    ∃ path content,
      snpxTestPolicy.generate_falco_rule_file ⟨"/tmp", 7⟩ = some (path, content)
      ∧ path = "/tmp/snpx-falco-rules-7.yaml"
      ∧ ("  condition: open_write and fd.name = \"/etc/passwd\"\n").data <:+: content.data := by
  have happ := (c6_generate_falco_rule_file_amended snpxTestPolicy ⟨"/tmp", 7⟩).2
  refine ⟨Snpx.falcoRuleFilePath ⟨"/tmp", 7⟩,
    "# Falco rules generated by snpx\n"
      ++ Snpx.falcoRuleSetsText snpxTestPolicy.spec.falco.rules, rfl, by decide, ?_⟩
  have h := happ _ _ rfl
  have hrs := h.2.2 ⟨"test-ruleset", "Test ruleset", true,
      [⟨"test-rule", "Test rule", "open_write and fd.name = \"/etc/passwd\"",
        "Write to /etc/passwd (user=%user.name)", "WARNING", "terminate"⟩],
      none⟩ (by simp [snpxTestPolicy, Snpx.mkFalcoPolicy]) rfl
  have hlines := hrs.2 rfl ⟨"test-rule", "Test rule",
      "open_write and fd.name = \"/etc/passwd\"",
      "Write to /etc/passwd (user=%user.name)", "WARNING", "terminate"⟩ (by simp)
  exact hlines.2.1

/-- An OPA security policy with every list empty and every scalar at its
inert default. -/
def emptyOpaPolicy : Opa.SecurityPolicy :=
  ⟨"v1", "SecurityPolicy", ⟨"empty", ""⟩,
    ⟨⟨⟨[], []⟩, [], "", false, [], ⟨0, 0, 0⟩, "", "", 0⟩,
      ⟨"", [], [], []⟩, ⟨[], [], []⟩, ⟨"", 0, [], ⟨"", ""⟩⟩,
      ⟨"", false, false, false⟩⟩⟩

set_option maxRecDepth 16384

/-- C7 counterexample: already on the empty policy the prefix-match
helper name occurs three times in the translator output (two section call
sites and one definition), not exactly once as the claim states. -/
theorem c7_helper_name_count_counterexample :
    countOcc swPattern (Opa.policy_to_rego emptyOpaPolicy).data = 3
    ∧ countOcc swPattern (Opa.policy_to_rego emptyOpaPolicy).data ≠ 1 := by
  refine ⟨?_, ?_⟩ <;> decide

/-- C7 (amended): for every policy whose interpolated list values do not
themselves contain the header text or a helper name, the translator
output contains the package/header declaration exactly once, the
prefix-match helper name exactly three times (two section call sites and
one definition) and the domain-match helper name exactly three times (one
call site and two definition variants, exact and suffix match) —
regardless of the sizes of the path, domain and port lists — and the
helper definitions form the suffix of the output, after all section
bodies. -/
theorem c7_policy_to_rego_amended (p : Opa.SecurityPolicy)
    (hv : ∀ v ∈ p.spec.filesystem.allowed_paths ++ p.spec.filesystem.blocked_paths
            ++ p.spec.network.allowed_domains ++ p.spec.network.blocked_ports,
          countOcc pkgPattern v.data = 0 ∧ countOcc swPattern v.data = 0
            ∧ countOcc dmPattern v.data = 0) :
    countOcc pkgPattern (Opa.policy_to_rego p).data = 1
    ∧ countOcc swPattern (Opa.policy_to_rego p).data = 3
    ∧ countOcc dmPattern (Opa.policy_to_rego p).data = 3
    ∧ Opa.policy_to_rego p = Opa.regoBody p ++ Opa.regoHelpers := by
  refine ⟨?_, ?_, ?_, rfl⟩
  · rw [countOcc_rego pkgPattern p (by decide) (by decide) (by decide) (by decide)
      (by decide) (fun v h => (hv v h).1)]
    decide
  · rw [countOcc_rego swPattern p (by decide) (by decide) (by decide) (by decide)
      (by decide) (fun v h => (hv v h).2.1)]
    decide
  · rw [countOcc_rego dmPattern p (by decide) (by decide) (by decide) (by decide)
      (by decide) (fun v h => (hv v h).2.2)]
    decide

/-- C7 witness: the amended theorem applied to the empty policy, whose
(empty) lists trivially satisfy the interpolation hypothesis. -/
theorem c7_policy_to_rego_amended_witness :
    countOcc pkgPattern (Opa.policy_to_rego emptyOpaPolicy).data = 1
    ∧ countOcc swPattern (Opa.policy_to_rego emptyOpaPolicy).data = 3
    ∧ countOcc dmPattern (Opa.policy_to_rego emptyOpaPolicy).data = 3
    ∧ Opa.policy_to_rego emptyOpaPolicy = Opa.regoBody emptyOpaPolicy ++ Opa.regoHelpers :=
  c7_policy_to_rego_amended emptyOpaPolicy (by intro v h; simp [emptyOpaPolicy] at h)

/-- C8 witness: the determinism theorem applied at concrete inputs,
including two different process environments for the Falco generator. -/
theorem c8_translators_deterministic_witness :
    PolicyConfig.new.get_all_docker_args = PolicyConfig.new.get_all_docker_args
    ∧ Opa.policy_to_rego emptyOpaPolicy = Opa.policy_to_rego emptyOpaPolicy
    ∧ (snpxTestPolicy.generate_falco_rule_file ⟨"/tmp", 1⟩).map Prod.snd
      = (snpxTestPolicy.generate_falco_rule_file ⟨"/var/tmp", 2⟩).map Prod.snd :=
  c8_translators_deterministic PolicyConfig.new PolicyConfig.new
    emptyOpaPolicy emptyOpaPolicy snpxTestPolicy snpxTestPolicy
    ⟨"/tmp", 1⟩ ⟨"/var/tmp", 2⟩ rfl rfl rfl
